import Mathlib

/-!
Verification of the SolarSystem core math engine (SolarCore/solarmathcore.cpp).

The C++ `SolarMathCore::Data` struct is modelled as the structure `Data`;
floating-point scalars are idealised as rationals (for state-manipulation
code) or reals (for the orbital trigonometry).  The two containers of the
source — the astronomical-object container (`solarContainer`) and the scene
container of visual 3D objects (`container->planets()`) — are modelled as
partial maps `SolarObjects → Option _`.
-/

namespace SolarSystem

/-- Body identifiers.  This enum (solarobjects.h) is part of the repository
but outside the excerpt; its members are exactly those referenced by
solarmathcore.cpp. -/
inductive SolarObjects where
  | Sun
  | Mercury
  | Venus
  | Earth
  | Mars
  | Jupiter
  | Saturn
  | Uranus
  | Neptune
  | Pluto
  | Moon
  | SaturnRing
  | UranusRing
  | EarthCloud
  | SolarSystemView
  deriving DecidableEq, Repr

/-- An astronomical object of the math container (class SolarObject): the six
orbital elements as base value + secular drift, rotation period, physical
radius, center-of-orbit id, and the mutable transform written by the solver. -/
structure SolarObject (α : Type) where
  N1 : α
  N2 : α
  i1 : α
  i2 : α
  w1 : α
  w2 : α
  a1 : α
  a2 : α
  e1 : α
  e2 : α
  M1 : α
  M2 : α
  period : α
  radius : α
  centerOfOrbit : SolarObjects
  x : α
  y : α
  z : α
  roll : α

/-- A visual 3D object of the scene container (class SolarObject3D):
position, roll, tilt and display radius. -/
structure SolarObject3D (α : Type) where
  x : α
  y : α
  z : α
  roll : α
  tilt : α
  r : α

/-- The mutable engine state, mirroring SolarMathCore::Data field by field
(camera/controller pointers and start values that no modelled operation
reads are omitted). -/
structure Data (α : Type) where
  deltaTime : α
  currentTimeD : α
  oldTimeD : α
  deltaTimeD : α
  daysPerFrame : α
  daysPerFrameScale : α
  planetScale : α
  focusedScaling : Bool
  focusedMinimumScale : α
  actualScale : α
  ultraSpeed : α
  ultraSpeedStep : α
  ultraSpeedMax : α
  saturnRingInnerRadius : α
  saturnRingOuterRadius : α
  uranusRingInnerRadius : α
  uranusRingOuterRadius : α
  earthCloudRModifier : α
  solarContainer : SolarObjects → Option (SolarObject α)
  planets : SolarObjects → Option (SolarObject3D α)

/-- SolarMathCore::changeExtraSpeed (solarmathcore.cpp:457-463): multiply the
burst multiplier by the step while the product stays within the ceiling,
otherwise reset it to 1. -/
def changeExtraSpeed (st : Data ℚ) : Data ℚ :=
  if st.ultraSpeed * st.ultraSpeedStep ≤ st.ultraSpeedMax then
    { st with ultraSpeed := st.ultraSpeed * st.ultraSpeedStep }
  else
    { st with ultraSpeed := 1 }

/-- SolarMathCore::resetExtraSpeed (solarmathcore.cpp:470-473). -/
def resetExtraSpeed (st : Data ℚ) : Data ℚ :=
  { st with ultraSpeed := 1 }

/-- SolarMathCore::setSolarObjectsScale (solarmathcore.cpp:277-286): a
non-focused call stores the scale as the persistent scale; the applied
planet scale is clamped to the focused minimum when the requested scale is
at most the minimum and either the persistent focused-scaling flag or the
focused request is set, and is the (updated) persistent scale otherwise. -/
def setSolarObjectsScale (st : Data ℚ) (scale : ℚ) (focused : Bool) : Data ℚ :=
  { st with
    actualScale := if focused then st.actualScale else scale,
    planetScale :=
      if scale ≤ st.focusedMinimumScale ∧ (st.focusedScaling = true ∨ focused = true) then
        st.focusedMinimumScale
      else
        if focused then st.actualScale else scale }

/-- Modelled from the spec: the effective scale as the spec's words describe
it — "Effective scale is the persistent scale unless (focused-flag OR
focused-request) AND scale ≤ floor, in which case effective scale is clamped
to the floor" — for comparison with the source's setSolarObjectsScale. -/
def specEffectiveScale (st : Data ℚ) (scale : ℚ) (focused : Bool) : ℚ :=
  if (st.focusedScaling = true ∨ focused = true) ∧ scale ≤ st.focusedMinimumScale then
    st.focusedMinimumScale
  else
    if focused then st.actualScale else scale

/-- SolarMathCore::changeSolarSystemScale (solarmathcore.cpp:312-352):
updates the scale state, then walks the scene container: the Sun's display
radius becomes physical-radius × scale / 80, each ordinary body's becomes
physical-radius × scale, and the stored Saturn/Uranus ring radii are
multiplied in place by the scale (only when the corresponding ring entry is
present in the container).  `radiusOf` stands for
SolarParser::parseSolarObjectRadius, an external static data source. -/
def changeSolarSystemScale (radiusOf : SolarObjects → ℚ) (scale : ℚ) (focused : Bool)
    (st : Data ℚ) : Data ℚ :=
  let st1 := setSolarObjectsScale st scale focused
  let scaling := st1.planetScale
  let planets2 : SolarObjects → Option (SolarObject3D ℚ) := fun o =>
    match st1.planets o with
    | none => none
    | some v =>
      match o with
      | .Sun => some { v with r := radiusOf o * scaling / 80 }
      | .Mercury | .Venus | .Earth | .Mars | .Jupiter | .Saturn | .Uranus
      | .Neptune | .Pluto | .Moon => some { v with r := radiusOf o * scaling }
      | _ => some v
  let st2 := { st1 with planets := planets2 }
  let st3 :=
    if (st1.planets SolarObjects.SaturnRing).isSome then
      { st2 with
        saturnRingOuterRadius := st2.saturnRingOuterRadius * scaling,
        saturnRingInnerRadius := st2.saturnRingInnerRadius * scaling }
    else st2
  if (st1.planets SolarObjects.UranusRing).isSome then
    { st3 with
      uranusRingInnerRadius := st3.uranusRingInnerRadius * scaling,
      uranusRingOuterRadius := st3.uranusRingOuterRadius * scaling }
  else st3

/-- The days-per-frame computation of SolarMathCore::advanceTime
(solarmathcore.cpp:246-253): the base scale for the whole-system view,
scaled by period/15000 for Mercury and Venus and by period/100 for every
other body.  `periodOf` stands for the period read off the container's
astronomical object. -/
def advanceTimeDaysPerFrame (daysPerFrameScale : ℚ) (periodOf : SolarObjects → ℚ)
    (obj : SolarObjects) : ℚ :=
  if obj = SolarObjects.SolarSystemView then
    daysPerFrameScale
  else if obj = SolarObjects.Mercury ∨ obj = SolarObjects.Venus then
    daysPerFrameScale * periodOf obj / 15000
  else
    daysPerFrameScale * periodOf obj / 100

/-- Modelled from the spec: the period factor of the spec's words — 1 for
the whole-system view, period/15000 for the two fastest inner planets,
period/100 otherwise. -/
def periodFactor (periodOf : SolarObjects → ℚ) (obj : SolarObjects) : ℚ :=
  if obj = SolarObjects.SolarSystemView then
    1
  else if obj = SolarObjects.Mercury ∨ obj = SolarObjects.Venus then
    periodOf obj / 15000
  else
    periodOf obj / 100

/-- SolarMathCore::calculateZoomLimit(object, limit)
(solarmathcore.cpp:533-559): the per-body empirical correction — Sun takes
the controller's default zoom limit, Mercury doubles, Jupiter divides by
1.5, Pluto multiplies by 1.5, all others keep the incoming limit. -/
def calculateZoomLimitEmpiric (defaultZoomLimit : ℚ) (obj : SolarObjects) (limit : ℚ) : ℚ :=
  match obj with
  | .Sun => defaultZoomLimit
  | .Mercury => limit * 2
  | .Jupiter => limit / 1.5
  | .Pluto => limit * 1.5
  | _ => limit

/-- SolarMathCore::calculateZoomLimit(object) (solarmathcore.cpp:561-571):
base limit planetScale × physical-radius × 4, then the empirical
correction. -/
def calculateZoomLimit (defaultZoomLimit planetScale : ℚ) (radiusOf : SolarObjects → ℚ)
    (obj : SolarObjects) : ℚ :=
  calculateZoomLimitEmpiric defaultZoomLimit obj (planetScale * radiusOf obj * 4)

/-- The zoom limit pushed to the camera controller by
SolarMathCore::updateSolarViewZoomLimit (solarmathcore.cpp:380-405): the
controller's default for the whole-system view, the corrected base limit for
every other body. -/
def updateSolarViewZoomLimit (defaultZoomLimit planetScale : ℚ)
    (radiusOf : SolarObjects → ℚ) (obj : SolarObjects) : ℚ :=
  if obj = SolarObjects.SolarSystemView then
    defaultZoomLimit
  else
    calculateZoomLimit defaultZoomLimit planetScale radiusOf obj

/-- One user action on the burst multiplier: a changeExtraSpeed call or a
resetExtraSpeed call. -/
inductive SpeedOp where
  | change
  | reset

/-- Apply one burst-speed action to the state. -/
def applySpeedOp (st : Data ℚ) : SpeedOp → Data ℚ
  | .change => changeExtraSpeed st
  | .reset => resetExtraSpeed st

/-- Apply a sequence of burst-speed actions in order. -/
def runSpeedOps (st : Data ℚ) (ops : List SpeedOp) : Data ℚ :=
  ops.foldl applySpeedOp st

/-- A baseline state: field values as default-initialised in
SolarMathCore::Data (ultraSpeed 1, step 2, ceiling 64, focusedMinimumScale
20, empty containers; time fields zeroed for concrete evaluation). -/
def baseData : Data ℚ where
  deltaTime := 0
  currentTimeD := 0
  oldTimeD := 0
  deltaTimeD := 0
  daysPerFrame := 0
  daysPerFrameScale := 0
  planetScale := 1
  focusedScaling := false
  focusedMinimumScale := 20
  actualScale := 1
  ultraSpeed := 1
  ultraSpeedStep := 2
  ultraSpeedMax := 64
  saturnRingInnerRadius := 0
  saturnRingOuterRadius := 0
  uranusRingInnerRadius := 0
  uranusRingOuterRadius := 0
  earthCloudRModifier := 1.010
  solarContainer := fun _ => none
  planets := fun _ => none

/-- A visual object at the origin with zeroed transform, for concrete
evaluation. -/
def zeroBody3D : SolarObject3D ℚ :=
  { x := 0, y := 0, z := 0, roll := 0, tilt := 0, r := 0 }

/-- A concrete state whose scene container holds only the Saturn ring, with
both stored Saturn ring radii equal to 1. -/
def ringData : Data ℚ :=
  { baseData with
    saturnRingInnerRadius := 1,
    saturnRingOuterRadius := 1,
    planets := fun o => if o = SolarObjects.SaturnRing then some zeroBody3D else none }

/-- The mathematical primitives the orbit solver calls (std::sin/cos/sqrt/
atan2 and M_PI), abstracted so the same definitions instantiate to exact
real analysis (for the trigonometric claims) and to computable dummies (for
concrete state evaluation). -/
structure OrbMath (α : Type) where
  pi : α
  sin : α → α
  cos : α → α
  sqrt : α → α
  atan2 : α → α → α

/-- The mean anomaly in radians evaluated at elapsed time t
(solarmathcore.cpp:203): (M1 + M2·t)·π/180. -/
def meanAnomaly {α : Type} [Field α] (m : OrbMath α) (o : SolarObject α) (t : α) : α :=
  (o.M1 + o.M2 * t) * m.pi / 180

/-- The eccentricity evaluated at elapsed time t (solarmathcore.cpp:202):
e1 + e2·t. -/
def eccentricityAt {α : Type} [Field α] (o : SolarObject α) (t : α) : α :=
  o.e1 + o.e2 * t

/-- n applications of the fixed-point map x ↦ M + e·sin(x)·(1 + e·cos(x))
seeded at the mean anomaly M, for comparison with the source's single
step. -/
def keplerIterate {α : Type} [Field α] (m : OrbMath α) (o : SolarObject α) (t : α) :
    Nat → α
  | 0 => meanAnomaly m o t
  | n + 1 =>
    meanAnomaly m o t +
      eccentricityAt o t * m.sin (keplerIterate m o t n) *
        (1 + eccentricityAt o t * m.cos (keplerIterate m o t n))

/-- The eccentric anomaly as the solver computes it (solarmathcore.cpp:204):
E = M + e·sin(M)·(1 + e·cos(M)). -/
def eccentricAnomaly {α : Type} [Field α] (m : OrbMath α) (o : SolarObject α) (t : α) : α :=
  meanAnomaly m o t +
    eccentricityAt o t * m.sin (meanAnomaly m o t) *
      (1 + eccentricityAt o t * m.cos (meanAnomaly m o t))

/-- The heliocentric/parent-relative offset (xh, yh, zh) computed by
solarObjectPosition for a non-Sun body (solarmathcore.cpp:198-219), before
the distance unit scale and the center-of-orbit offset are applied. -/
def solarPositionOffset {α : Type} [Field α] (m : OrbMath α) (o : SolarObject α) (t : α) :
    α × α × α :=
  let N := (o.N1 + o.N2 * t) * m.pi / 180
  let iPlanet := (o.i1 + o.i2 * t) * m.pi / 180
  let w := (o.w1 + o.w2 * t) * m.pi / 180
  let a := o.a1 + o.a2 * t
  let e := eccentricityAt o t
  let E := eccentricAnomaly m o t
  let xv := a * (m.cos E - e)
  let yv := a * (m.sqrt (1 - e * e) * m.sin E)
  let v := m.atan2 yv xv
  let r := m.sqrt (xv * xv + yv * yv)
  let xh := r * (m.cos N * m.cos (v + w) - m.sin N * m.sin (v + w) * m.cos iPlanet)
  let zh := -(r * (m.sin N * m.cos (v + w) + m.cos N * m.sin (v + w) * m.cos iPlanet))
  let yh := r * (m.sin (w + v) * m.sin iPlanet)
  (xh, yh, zh)

/-- The final position written for a non-Sun body
(solarmathcore.cpp:225-227): center-of-orbit position plus the offset scaled
by the distance unit factor (SolarValues::auScale, passed in as it lives
outside the excerpt). -/
def solarObjectPositionCalc {α : Type} [Field α] (m : OrbMath α) (o : SolarObject α)
    (t auScale : α) (center : α × α × α) : α × α × α :=
  let off := solarPositionOffset m o t
  (center.1 + off.1 * auScale, center.2.1 + off.2.1 * auScale, center.2.2 + off.2.2 * auScale)

/-- SolarMathCore::solarObjectPosition (solarmathcore.cpp:186-244) as a state
transform: nothing happens when the math container has no record for the id;
otherwise a non-Sun body gets its position recomputed from its elements and
its center-of-orbit's current position (left unchanged if the center has no
record, a case the C++ would dereference a null pointer on), the roll is
advanced by deltaTimeD/period·360, and the resulting transform is copied to
the scene's visual object when — and only when — one is present. -/
def solarObjectPosition (m : OrbMath ℚ) (auScale : ℚ) (st : Data ℚ)
    (obj : SolarObjects) : Data ℚ :=
  match st.solarContainer obj with
  | none => st
  | some so =>
    let so1 :=
      if obj = SolarObjects.Sun then so
      else
        match st.solarContainer so.centerOfOrbit with
        | none => so
        | some centerObj =>
          let p := solarObjectPositionCalc m so st.currentTimeD auScale
            (centerObj.x, centerObj.y, centerObj.z)
          { so with x := p.1, y := p.2.1, z := p.2.2 }
    let so2 := { so1 with roll := so1.roll + st.deltaTimeD / so1.period * 360 }
    let container2 : SolarObjects → Option (SolarObject ℚ) :=
      fun o => if o = obj then some so2 else st.solarContainer o
    let planets2 : SolarObjects → Option (SolarObject3D ℚ) :=
      match st.planets obj with
      | none => st.planets
      | some v =>
        fun o =>
          if o = obj then
            some { v with x := so2.x, y := so2.y, z := so2.z, roll := so2.roll }
          else st.planets o
    { st with solarContainer := container2, planets := planets2 }

/-- The Saturn block of SolarMathCore::setupPlanetRings
(solarmathcore.cpp:488-499): when both the ring and the planet are in the
scene, the ring takes the planet's x/y/z and tilt, a tenth of its roll, and
the stored inner/outer ring radii combined by /1.75 as its radius. -/
def saturnRingStep (st : Data ℚ) : Data ℚ :=
  match st.planets SolarObjects.SaturnRing, st.planets SolarObjects.Saturn with
  | some ring, some saturn =>
    { st with planets := fun o =>
        if o = SolarObjects.SaturnRing then
          some { ring with
            x := saturn.x, y := saturn.y, z := saturn.z, tilt := saturn.tilt,
            roll := saturn.roll / 10,
            r := (st.saturnRingInnerRadius + st.saturnRingOuterRadius) / 1.75 }
        else st.planets o }
  | _, _ => st

/-- The Uranus block of SolarMathCore::setupPlanetRings
(solarmathcore.cpp:501-512). -/
def uranusRingStep (st : Data ℚ) : Data ℚ :=
  match st.planets SolarObjects.UranusRing, st.planets SolarObjects.Uranus with
  | some ring, some uranus =>
    { st with planets := fun o =>
        if o = SolarObjects.UranusRing then
          some { ring with
            x := uranus.x, y := uranus.y, z := uranus.z, tilt := uranus.tilt,
            roll := uranus.roll / 10,
            r := (st.uranusRingInnerRadius + st.uranusRingOuterRadius) / 1.75 }
        else st.planets o }
  | _, _ => st

/-- SolarMathCore::setupPlanetRings (solarmathcore.cpp:484-513): the Saturn
block, then the Uranus block. -/
def setupPlanetRings (st : Data ℚ) : Data ℚ :=
  uranusRingStep (saturnRingStep st)

/-- SolarMathCore::atmosphereCalculations (solarmathcore.cpp:515-531): when
the Earth cloud and the Earth are both in the scene, the cloud takes the
Earth's x/y/z and tilt, its roll divided by 1.2, and its radius times the
cloud radius modifier. -/
def atmosphereCalculations (st : Data ℚ) : Data ℚ :=
  match st.planets SolarObjects.EarthCloud, st.planets SolarObjects.Earth with
  | some cloud, some earth =>
    { st with planets := fun o =>
        if o = SolarObjects.EarthCloud then
          some { cloud with
            x := earth.x, y := earth.y, z := earth.z, tilt := earth.tilt,
            roll := earth.roll / 1.2,
            r := earth.r * st.earthCloudRModifier }
        else st.planets o }
  | _, _ => st

/-- SolarMathCore::additionalCalculation (solarmathcore.cpp:364-368). -/
def additionalCalculation (st : Data ℚ) : Data ℚ :=
  atmosphereCalculations (setupPlanetRings st)

/-- Computable dummy math primitives over ℚ, for evaluating state
transforms on paths that never reach the trigonometry. -/
def qOrbMath : OrbMath ℚ where
  pi := 0
  sin := fun _ => 0
  cos := fun _ => 0
  sqrt := fun _ => 0
  atan2 := fun _ _ => 0

/-- A Sun record with zeroed elements, rotation period 1 and zero roll. -/
def sunObject : SolarObject ℚ where
  N1 := 0
  N2 := 0
  i1 := 0
  i2 := 0
  w1 := 0
  w2 := 0
  a1 := 0
  a2 := 0
  e1 := 0
  e2 := 0
  M1 := 0
  M2 := 0
  period := 1
  radius := 0
  centerOfOrbit := SolarObjects.Sun
  x := 0
  y := 0
  z := 0
  roll := 0

/-- A state whose math container holds only the Sun and whose scene holds no
visual body at all, with one day of frame delta. -/
def sunOnlyData : Data ℚ :=
  { baseData with
    deltaTimeD := 1,
    solarContainer := fun o => if o = SolarObjects.Sun then some sunObject else none }

/-- A circular, uninclined test orbit over ℝ: every element zero except a
unit semi-major axis (and rotation period 1). -/
def unitOrbitObject : SolarObject ℝ where
  N1 := 0
  N2 := 0
  i1 := 0
  i2 := 0
  w1 := 0
  w2 := 0
  a1 := 1
  a2 := 0
  e1 := 0
  e2 := 0
  M1 := 0
  M2 := 0
  period := 1
  radius := 0
  centerOfOrbit := SolarObjects.Sun
  x := 0
  y := 0
  z := 0
  roll := 0

/-- A Saturn visual body with a distinctive transform. -/
def saturnBody : SolarObject3D ℚ :=
  { x := 1, y := 2, z := 3, roll := 40, tilt := 5, r := 6 }

/-- A state whose scene holds Saturn and its ring, with stored ring radii 3
and 4. -/
def saturnPairData : Data ℚ :=
  { baseData with
    saturnRingInnerRadius := 3,
    saturnRingOuterRadius := 4,
    planets := fun o =>
      if o = SolarObjects.Saturn then some saturnBody
      else if o = SolarObjects.SaturnRing then some zeroBody3D
      else none }

end SolarSystem

namespace SolarSystem

/-- Claim C2: starting from a burst multiplier of 1 (with step 2 and ceiling
64, the initial values of SolarMathCore::Data), seven successive
changeExtraSpeed calls yield the multipliers 2, 4, 8, 16, 32, 64 and then
wrap back to 1 on the seventh call. -/
theorem changeExtraSpeed_seven_calls :
    (changeExtraSpeed baseData).ultraSpeed = 2 ∧
    (changeExtraSpeed^[2] baseData).ultraSpeed = 4 ∧
    (changeExtraSpeed^[3] baseData).ultraSpeed = 8 ∧
    (changeExtraSpeed^[4] baseData).ultraSpeed = 16 ∧
    (changeExtraSpeed^[5] baseData).ultraSpeed = 32 ∧
    (changeExtraSpeed^[6] baseData).ultraSpeed = 64 ∧
    (changeExtraSpeed^[7] baseData).ultraSpeed = 1 := by
  refine ⟨?_, ?_, ?_, ?_, ?_, ?_, ?_⟩ <;>
    simp [Function.iterate_succ_apply, changeExtraSpeed, baseData] <;> norm_num

/-- Claim C3: a non-focused setSolarObjectsScale call at x followed by a
focused call at y ≤ the focused floor leaves the applied scale equal to the
floor; and in general the applied scale is the persistent scale unless
(focused-flag OR focused-request) AND requested scale ≤ floor, in which case
it is the floor (specEffectiveScale). -/
theorem setSolarObjectsScale_focused_floor :
    ∀ (st : Data ℚ) (x y : ℚ),
      (y ≤ st.focusedMinimumScale →
        (setSolarObjectsScale (setSolarObjectsScale st x false) y true).planetScale =
          st.focusedMinimumScale) ∧
      ∀ (s : ℚ) (f : Bool),
        (setSolarObjectsScale st s f).planetScale = specEffectiveScale st s f := by
  intro st x y
  constructor
  · intro hy
    simp [setSolarObjectsScale, hy]
  · intro s f
    simp only [setSolarObjectsScale, specEffectiveScale, and_comm]

/-- Claim C3 witness: at the floor 20 of the default state, scaling to 100
unfocused and then to 3 focused applies the floor scale 20. -/
theorem setSolarObjectsScale_focused_floor_witness :
    (setSolarObjectsScale (setSolarObjectsScale baseData 100 false) 3 true).planetScale = 20 :=
  (setSolarObjectsScale_focused_floor baseData 100 3).1 (by norm_num [baseData])

/-- Claim C4: the days-per-frame value computed by advanceTime equals the
speed scale times a period factor that is 1 for the whole-system view,
period/15000 for Mercury and Venus, and period/100 for every other body. -/
theorem advanceTime_daysPerFrame_periodFactor :
    ∀ (scale : ℚ) (periodOf : SolarObjects → ℚ) (obj : SolarObjects),
      advanceTimeDaysPerFrame scale periodOf obj = scale * periodFactor periodOf obj := by
  intro scale periodOf obj
  cases obj <;> simp [advanceTimeDaysPerFrame, periodFactor] <;> ring

/-- Claim C7: the zoom limit is planetScale × physical-radius × 4 with the
per-body correction: whole-system view and Sun take the controller default,
Mercury doubles, Jupiter divides by 1.5, Pluto multiplies by 1.5, every
other body is unchanged; at scale 1 Jupiter's limit is (R·4)/1.5 and
Mercury's is (R·4)·2. -/
theorem calculateZoomLimit_per_body :
    ∀ (d scale : ℚ) (radiusOf : SolarObjects → ℚ),
      updateSolarViewZoomLimit d scale radiusOf SolarObjects.SolarSystemView = d ∧
      updateSolarViewZoomLimit d scale radiusOf SolarObjects.Sun = d ∧
      updateSolarViewZoomLimit d scale radiusOf SolarObjects.Mercury =
        scale * radiusOf SolarObjects.Mercury * 4 * 2 ∧
      updateSolarViewZoomLimit d scale radiusOf SolarObjects.Jupiter =
        scale * radiusOf SolarObjects.Jupiter * 4 / 1.5 ∧
      updateSolarViewZoomLimit d scale radiusOf SolarObjects.Pluto =
        scale * radiusOf SolarObjects.Pluto * 4 * 1.5 ∧
      (∀ obj, obj ≠ SolarObjects.SolarSystemView → obj ≠ SolarObjects.Sun →
        obj ≠ SolarObjects.Mercury → obj ≠ SolarObjects.Jupiter →
        obj ≠ SolarObjects.Pluto →
        updateSolarViewZoomLimit d scale radiusOf obj = scale * radiusOf obj * 4) ∧
      calculateZoomLimit d 1 radiusOf SolarObjects.Jupiter =
        radiusOf SolarObjects.Jupiter * 4 / 1.5 ∧
      calculateZoomLimit d 1 radiusOf SolarObjects.Mercury =
        radiusOf SolarObjects.Mercury * 4 * 2 := by
  intro d scale radiusOf
  refine ⟨rfl, rfl, rfl, rfl, rfl, ?_, ?_, ?_⟩
  · intro obj h1 h2 h3 h4 h5
    cases obj <;>
      simp_all [updateSolarViewZoomLimit, calculateZoomLimit, calculateZoomLimitEmpiric]
  · simp [calculateZoomLimit, calculateZoomLimitEmpiric]
  · simp [calculateZoomLimit, calculateZoomLimitEmpiric]

/-- Claim C7 witness: with default 7, scale 5 and every physical radius 1,
Venus (an uncorrected body) gets limit 5·1·4 = 20. -/
theorem calculateZoomLimit_per_body_witness :
    updateSolarViewZoomLimit 7 5 (fun _ => 1) SolarObjects.Venus = 20 := by
  have h := ((calculateZoomLimit_per_body 7 5 (fun _ => 1)).2.2.2.2.2.1)
    SolarObjects.Venus (by decide) (by decide) (by decide) (by decide) (by decide)
  norm_num at h
  exact h

/-- Claim C1 (code behaviour at the failing input): with the Saturn ring
present, stored inner radius 1 and persistent scale 30, one
changeSolarSystemScale call leaves the inner ring radius 30 but a second
identical call leaves it 900: the in-place multiplication compounds instead
of being idempotent. -/
theorem changeSolarSystemScale_ring_compounds :
    (changeSolarSystemScale (fun _ => 1) 30 false ringData).saturnRingInnerRadius = 30 ∧
    (changeSolarSystemScale (fun _ => 1) 30 false
        (changeSolarSystemScale (fun _ => 1) 30 false ringData)).saturnRingInnerRadius = 900 ∧
    (900 : ℚ) ≠ 30 := by
  refine ⟨?_, ?_, by norm_num⟩ <;>
    norm_num [changeSolarSystemScale, setSolarObjectsScale, ringData, baseData, zeroBody3D]

/-- Claim C10: starting from the initial state (burst multiplier 1, step 2,
ceiling 64), every sequence of changeExtraSpeed and resetExtraSpeed calls
keeps the burst multiplier in the set of powers of two from 1 to 64. -/
theorem ultraSpeed_powers_of_two :
    ∀ (ops : List SpeedOp),
      (runSpeedOps baseData ops).ultraSpeed ∈ ({1, 2, 4, 8, 16, 32, 64} : Set ℚ) := by
  have step : ∀ (st : Data ℚ) (op : SpeedOp),
      st.ultraSpeedStep = 2 → st.ultraSpeedMax = 64 →
      st.ultraSpeed ∈ ({1, 2, 4, 8, 16, 32, 64} : Set ℚ) →
      (applySpeedOp st op).ultraSpeedStep = 2 ∧
        (applySpeedOp st op).ultraSpeedMax = 64 ∧
        (applySpeedOp st op).ultraSpeed ∈ ({1, 2, 4, 8, 16, 32, 64} : Set ℚ) := by
    intro st op h1 h2 h3
    cases op
    · unfold applySpeedOp changeExtraSpeed
      rw [h1, h2]
      simp only [Set.mem_insert_iff, Set.mem_singleton_iff] at h3
      rcases h3 with h | h | h | h | h | h | h <;> rw [h] <;> norm_num
    · unfold applySpeedOp resetExtraSpeed
      refine ⟨h1, h2, ?_⟩
      simp
  have main : ∀ (ops : List SpeedOp) (st : Data ℚ),
      st.ultraSpeedStep = 2 → st.ultraSpeedMax = 64 →
      st.ultraSpeed ∈ ({1, 2, 4, 8, 16, 32, 64} : Set ℚ) →
      (runSpeedOps st ops).ultraSpeed ∈ ({1, 2, 4, 8, 16, 32, 64} : Set ℚ) := by
    intro ops
    induction ops with
    | nil => intro st _ _ h3; exact h3
    | cons op rest ih =>
      intro st h1 h2 h3
      have h := step st op h1 h2 h3
      exact ih (applySpeedOp st op) h.1 h.2.1 h.2.2
  intro ops
  exact main ops baseData rfl rfl (by simp [baseData])

/-- Claim C5: the solver's eccentric anomaly is E = M + e·sin(M)·(1 +
e·cos(M)) with M and e evaluated as base + drift·t, and it is exactly one
application of the fixed-point map seeded at the mean anomaly (keplerIterate
m o t 1), not an iteration to convergence. -/
theorem eccentricAnomaly_one_fixed_point_step :
    ∀ (α : Type) [Field α] (m : OrbMath α) (o : SolarObject α) (t : α),
      eccentricAnomaly m o t =
        (o.M1 + o.M2 * t) * m.pi / 180 +
          (o.e1 + o.e2 * t) * m.sin ((o.M1 + o.M2 * t) * m.pi / 180) *
            (1 + (o.e1 + o.e2 * t) * m.cos ((o.M1 + o.M2 * t) * m.pi / 180)) ∧
      eccentricAnomaly m o t = keplerIterate m o t 1 :=
  fun _ _ _ _ _ => ⟨rfl, rfl⟩

/-- For any two angles, the squared components of a plane rotation sum to
one: (cos x·cos y − sin x·sin y)² + (sin x·cos y + cos x·sin y)² = 1. -/
theorem cos_sin_rot_sq (x y : ℝ) :
    (Real.cos x * Real.cos y - Real.sin x * Real.sin y) ^ 2 +
      (Real.sin x * Real.cos y + Real.cos x * Real.sin y) ^ 2 = 1 := by
  rw [← Real.cos_add, ← Real.sin_add]
  exact Real.cos_sq_add_sin_sq (x + y)

/-- The orbital-plane radius of a circular orbit: √(a·cos x·(a·cos x) +
a·sin x·(a·sin x)) = a for 0 ≤ a. -/
theorem sqrt_circ (a x : ℝ) (ha : 0 ≤ a) :
    Real.sqrt (a * Real.cos x * (a * Real.cos x) + a * Real.sin x * (a * Real.sin x)) = a := by
  have h : a * Real.cos x * (a * Real.cos x) + a * Real.sin x * (a * Real.sin x) = a ^ 2 := by
    have hs := Real.sin_sq_add_cos_sq x
    nlinarith [hs]
  rw [h, Real.sqrt_sq ha]

/-- Claim C6: for a body whose evaluated eccentricity and inclination are
both zero (and nonnegative evaluated semi-major axis and distance scale),
the solved position's out-of-plane (y) offset from the center of orbit is
zero and its distance from the center-of-orbit position is the evaluated
semi-major axis times the distance unit scale, for every value of the mean
anomaly (the mean-anomaly elements M1, M2 and the time t are universally
quantified). -/
theorem solarPosition_zero_ecc_zero_incl :
    ∀ (pi0 : ℝ) (at2 : ℝ → ℝ → ℝ) (o : SolarObject ℝ) (t auScale : ℝ) (c : ℝ × ℝ × ℝ),
      o.e1 + o.e2 * t = 0 →
      o.i1 + o.i2 * t = 0 →
      0 ≤ o.a1 + o.a2 * t →
      0 ≤ auScale →
      (solarObjectPositionCalc ⟨pi0, Real.sin, Real.cos, Real.sqrt, at2⟩ o t auScale c).2.1 -
          c.2.1 = 0 ∧
      Real.sqrt
          (((solarObjectPositionCalc ⟨pi0, Real.sin, Real.cos, Real.sqrt, at2⟩ o t auScale c).1 -
              c.1) ^ 2 +
            ((solarObjectPositionCalc ⟨pi0, Real.sin, Real.cos, Real.sqrt, at2⟩ o t auScale
                c).2.1 - c.2.1) ^ 2 +
            ((solarObjectPositionCalc ⟨pi0, Real.sin, Real.cos, Real.sqrt, at2⟩ o t auScale
                c).2.2 - c.2.2) ^ 2) = (o.a1 + o.a2 * t) * auScale := by
  intro pi0 at2 o t auScale c he hi ha hau
  simp only [solarObjectPositionCalc, solarPositionOffset, eccentricAnomaly, eccentricityAt,
    meanAnomaly]
  rw [he, hi]
  simp only [zero_mul, mul_zero, add_zero, zero_add, mul_one, one_mul, sub_zero, zero_div,
    Real.sqrt_one, Real.sin_zero, Real.cos_zero, add_sub_cancel_left, sub_self]
  refine ⟨trivial, ?_⟩
  set A := o.a1 + o.a2 * t with hA
  set M := (o.M1 + o.M2 * t) * pi0 / 180 with hM
  rw [sqrt_circ A M ha]
  set N := (o.N1 + o.N2 * t) * pi0 / 180 with hN
  set W := (o.w1 + o.w2 * t) * pi0 / 180 with hW
  set V := at2 (A * Real.sin M) (A * Real.cos M) with hV
  have key : (A * (Real.cos N * Real.cos (V + W) - Real.sin N * Real.sin (V + W)) * auScale) ^ 2 +
      0 ^ 2 +
      (-(A * (Real.sin N * Real.cos (V + W) + Real.cos N * Real.sin (V + W))) * auScale) ^ 2 =
      (A * auScale) ^ 2 := by
    have h := cos_sin_rot_sq N (V + W)
    linear_combination (A * auScale) ^ 2 * h
  rw [key, Real.sqrt_sq (mul_nonneg ha hau)]

/-- Claim C6 witness: the unit circular uninclined orbit at t = 0, distance
scale 1 and center at the origin sits at zero out-of-plane offset and at
distance 1·1 from the center. -/
theorem solarPosition_zero_ecc_zero_incl_witness :
    (solarObjectPositionCalc ⟨0, Real.sin, Real.cos, Real.sqrt, fun _ _ => 0⟩ unitOrbitObject 0 1
        ((0, 0, 0) : ℝ × ℝ × ℝ)).2.1 - ((0, 0, 0) : ℝ × ℝ × ℝ).2.1 = 0 ∧
    Real.sqrt
        (((solarObjectPositionCalc ⟨0, Real.sin, Real.cos, Real.sqrt, fun _ _ => 0⟩
              unitOrbitObject 0 1 ((0, 0, 0) : ℝ × ℝ × ℝ)).1 -
            ((0, 0, 0) : ℝ × ℝ × ℝ).1) ^ 2 +
          ((solarObjectPositionCalc ⟨0, Real.sin, Real.cos, Real.sqrt, fun _ _ => 0⟩
              unitOrbitObject 0 1 ((0, 0, 0) : ℝ × ℝ × ℝ)).2.1 -
            ((0, 0, 0) : ℝ × ℝ × ℝ).2.1) ^ 2 +
          ((solarObjectPositionCalc ⟨0, Real.sin, Real.cos, Real.sqrt, fun _ _ => 0⟩
              unitOrbitObject 0 1 ((0, 0, 0) : ℝ × ℝ × ℝ)).2.2 -
            ((0, 0, 0) : ℝ × ℝ × ℝ).2.2) ^ 2) =
      (unitOrbitObject.a1 + unitOrbitObject.a2 * 0) * 1 :=
  solarPosition_zero_ecc_zero_incl 0 (fun _ _ => 0) unitOrbitObject 0 1 ((0, 0, 0) : ℝ × ℝ × ℝ)
    (by norm_num [unitOrbitObject]) (by norm_num [unitOrbitObject])
    (by norm_num [unitOrbitObject]) (by norm_num)

/-- Claim C8 counterexample: in a state whose scene has no live visual body
at all but whose math container has a Sun record with period 1 and roll 0,
with one day of frame delta, solarObjectPosition on the Sun is not a no-op:
the registry's roll advances from 0 to 360 degrees. -/
theorem solarObjectPosition_missing_visual_mutates :
    sunOnlyData.planets SolarObjects.Sun = none ∧
    ((solarObjectPosition qOrbMath 1 sunOnlyData SolarObjects.Sun).solarContainer
        SolarObjects.Sun).map SolarObject.roll = some 360 ∧
    (sunOnlyData.solarContainer SolarObjects.Sun).map SolarObject.roll = some 0 := by
  refine ⟨rfl, ?_, rfl⟩
  norm_num [solarObjectPosition, sunOnlyData, baseData, sunObject]

/-- Claim C8 (amended): solarObjectPosition is a complete no-op exactly when
the id has no record in the math container; when the id has a math record
but no live visual body in the scene, the scene is untouched (only the copy
to the visual object is skipped) while the registry may still change. -/
theorem solarObjectPosition_missing_cases :
    ∀ (m : OrbMath ℚ) (auScale : ℚ) (st : Data ℚ) (obj : SolarObjects),
      (st.solarContainer obj = none → solarObjectPosition m auScale st obj = st) ∧
      (st.planets obj = none →
        (solarObjectPosition m auScale st obj).planets = st.planets) := by
  intro m auScale st obj
  constructor
  · intro h
    simp [solarObjectPosition, h]
  · intro h
    rcases hc : st.solarContainer obj with _ | so <;>
      simp [solarObjectPosition, hc, h]

/-- Claim C8 witness: on the empty baseline state, solarObjectPosition on
the Sun is a no-op. -/
theorem solarObjectPosition_missing_cases_witness :
    solarObjectPosition qOrbMath 1 baseData SolarObjects.Sun = baseData :=
  (solarObjectPosition_missing_cases qOrbMath 1 baseData SolarObjects.Sun).1 rfl

/-- Claim C9: each (ring, planet) and (cloud, planet) propagation step with
both members in the scene copies x, y, z and tilt from the parent, sets the
dependent's roll to parent-roll/10 (rings) or parent-roll/1.2 (cloud), and
sets its radius from the stored ring inner/outer radii combined by /1.75
(rings) or the parent radius times the cloud modifier (cloud); a step with
either member absent changes nothing; setupPlanetRings and
additionalCalculation are exactly these steps in sequence. -/
theorem ringsAndAtmosphere_propagation :
    ∀ (st : Data ℚ),
      (∀ ring saturn,
        st.planets SolarObjects.SaturnRing = some ring →
        st.planets SolarObjects.Saturn = some saturn →
        saturnRingStep st =
          { st with planets := fun o =>
              if o = SolarObjects.SaturnRing then
                some { ring with
                  x := saturn.x, y := saturn.y, z := saturn.z, tilt := saturn.tilt,
                  roll := saturn.roll / 10,
                  r := (st.saturnRingInnerRadius + st.saturnRingOuterRadius) / 1.75 }
              else st.planets o }) ∧
      (st.planets SolarObjects.SaturnRing = none ∨ st.planets SolarObjects.Saturn = none →
        saturnRingStep st = st) ∧
      (∀ ring uranus,
        st.planets SolarObjects.UranusRing = some ring →
        st.planets SolarObjects.Uranus = some uranus →
        uranusRingStep st =
          { st with planets := fun o =>
              if o = SolarObjects.UranusRing then
                some { ring with
                  x := uranus.x, y := uranus.y, z := uranus.z, tilt := uranus.tilt,
                  roll := uranus.roll / 10,
                  r := (st.uranusRingInnerRadius + st.uranusRingOuterRadius) / 1.75 }
              else st.planets o }) ∧
      (st.planets SolarObjects.UranusRing = none ∨ st.planets SolarObjects.Uranus = none →
        uranusRingStep st = st) ∧
      (∀ cloud earth,
        st.planets SolarObjects.EarthCloud = some cloud →
        st.planets SolarObjects.Earth = some earth →
        atmosphereCalculations st =
          { st with planets := fun o =>
              if o = SolarObjects.EarthCloud then
                some { cloud with
                  x := earth.x, y := earth.y, z := earth.z, tilt := earth.tilt,
                  roll := earth.roll / 1.2,
                  r := earth.r * st.earthCloudRModifier }
              else st.planets o }) ∧
      (st.planets SolarObjects.EarthCloud = none ∨ st.planets SolarObjects.Earth = none →
        atmosphereCalculations st = st) ∧
      setupPlanetRings st = uranusRingStep (saturnRingStep st) ∧
      additionalCalculation st = atmosphereCalculations (setupPlanetRings st) := by
  intro st
  refine ⟨?_, ?_, ?_, ?_, ?_, ?_, rfl, rfl⟩
  · intro ring saturn h1 h2
    simp [saturnRingStep, h1, h2]
  · intro h
    rcases h with h | h
    · simp [saturnRingStep, h]
    · rcases hc : st.planets SolarObjects.SaturnRing with _ | r <;>
        simp [saturnRingStep, hc, h]
  · intro ring uranus h1 h2
    simp [uranusRingStep, h1, h2]
  · intro h
    rcases h with h | h
    · simp [uranusRingStep, h]
    · rcases hc : st.planets SolarObjects.UranusRing with _ | r <;>
        simp [uranusRingStep, hc, h]
  · intro cloud earth h1 h2
    simp [atmosphereCalculations, h1, h2]
  · intro h
    rcases h with h | h
    · simp [atmosphereCalculations, h]
    · rcases hc : st.planets SolarObjects.EarthCloud with _ | c <;>
        simp [atmosphereCalculations, hc, h]

/-- Claim C9 witness: with Saturn at (1,2,3), tilt 5, roll 40 and its ring
present, the Saturn step moves the ring to (1,2,3), tilt 5, roll 4, radius
(3+4)/1.75 = 4. -/
theorem ringsAndAtmosphere_propagation_witness :
    saturnRingStep saturnPairData =
      { saturnPairData with planets := fun o =>
          if o = SolarObjects.SaturnRing then
            (some { zeroBody3D with
              x := saturnBody.x, y := saturnBody.y, z := saturnBody.z,
              tilt := saturnBody.tilt, roll := saturnBody.roll / 10,
              r := (saturnPairData.saturnRingInnerRadius +
                saturnPairData.saturnRingOuterRadius) / 1.75 })
          else saturnPairData.planets o } :=
  (ringsAndAtmosphere_propagation saturnPairData).1 zeroBody3D saturnBody rfl rfl

end SolarSystem
